import Mathlib

/-!
A verification development for the `bastide/weather` repository: a shallow
embedding of the sampling-and-retention engine (`SensorDataManager` in
`app_enviro.py`, the extended Enviro+ variant, and in `app.py`, the baseline
SenseHAT variant), together with proofs about its ring-buffer retention,
snapshot, statistics, polling-cycle and lifecycle behaviour.

Modelling conventions:
* Python `deque(maxlen=m)` with single-element appends is modelled by
  `dequeAppend`: append then drop from the left down to `m` elements.
* Metric values are rationals (`ℚ`); Python floats carry only numeric
  values through this code, no float-specific behaviour is relied on.
* Timestamps (`datetime.now()`) are modelled as naturals passed in
  explicitly by the caller.
* A Python dict of sensor values is an association list `Dict`;
  `data['k']` is `List.lookup`, raising `KeyError` when absent.
* Exceptions are modelled by `Option String` error components; a Python
  method that mutates state and then raises returns the partially
  mutated state together with `some err`, exactly as the interpreter
  leaves the object.
-/

/-- `deque(maxlen=m).append x`: append on the right, then evict from the
left until at most `m` elements remain.  Since appends happen one at a
time, at most one element is ever evicted. -/
def dequeAppend (m : Nat) (xs : List α) (x : α) : List α :=
  (xs ++ [x]).drop (xs.length + 1 - m)

namespace AppEnviro

/-- One complete sensor sample of the extended variant: the eleven metric
values that `SensorDataManager.read_sensors` (app_enviro.py) produces. -/
structure Reading where
  temperature : ℚ
  pressure : ℚ
  humidity : ℚ
  light : ℚ
  proximity : ℚ
  gas_oxidising : ℚ
  gas_reducing : ℚ
  gas_nh3 : ℚ
  pm1 : ℚ
  pm2_5 : ℚ
  pm10 : ℚ
deriving DecidableEq

/-- A Python dict of numeric sensor values, as passed to `add_sample`. -/
abbrev Dict := List (String × ℚ)

/-- The dict literal returned by `read_sensors` on success
(app_enviro.py lines 93-105), in source order. -/
def Reading.toDict (r : Reading) : Dict :=
  [("temperature", r.temperature), ("pressure", r.pressure),
   ("humidity", r.humidity), ("light", r.light),
   ("proximity", r.proximity), ("gas_oxidising", r.gas_oxidising),
   ("gas_reducing", r.gas_reducing), ("gas_nh3", r.gas_nh3),
   ("pm1", r.pm1), ("pm2_5", r.pm2_5), ("pm10", r.pm10)]

/-- State of `SensorDataManager` (app_enviro.py): the configuration, the
twelve bounded deques, the running flag, and a count of acquisition
threads spawned so far (each `Thread(...).start()` in `start` increments
it; it lets "no second task is spawned" be stated). -/
structure SensorDataManager where
  max_samples : Nat
  polling_interval : Nat
  timestamps : List Nat
  temperatures : List ℚ
  pressures : List ℚ
  humidities : List ℚ
  light_levels : List ℚ
  proximities : List ℚ
  gas_oxidising : List ℚ
  gas_reducing : List ℚ
  gas_nh3 : List ℚ
  pm1 : List ℚ
  pm2_5 : List ℚ
  pm10 : List ℚ
  running : Bool
  threads_spawned : Nat
deriving DecidableEq

/-- `SensorDataManager.__init__`: empty deques of capacity `max_samples`,
not running. -/
def SensorDataManager.init (ms pi : Nat) : SensorDataManager :=
  { max_samples := ms, polling_interval := pi,
    timestamps := [], temperatures := [], pressures := [],
    humidities := [], light_levels := [], proximities := [],
    gas_oxidising := [], gas_reducing := [], gas_nh3 := [],
    pm1 := [], pm2_5 := [], pm10 := [],
    running := false, threads_spawned := 0 }

/-- `SensorDataManager.add_sample(data)` (app_enviro.py lines 110-128).
Faithful to the source: a falsy `data` (None or empty dict) returns at
once without touching the deques; otherwise the twelve appends run in
source order, and a missing key raises `KeyError` midway, leaving the
earlier appends in place (the partially mutated state is returned
together with the error). -/
def add_sample (st : SensorDataManager) (now : Nat) (data : Dict) :
    SensorDataManager × Option String :=
  if data.isEmpty then (st, none) else
  let st := { st with timestamps := dequeAppend st.max_samples st.timestamps now }
  match List.lookup "temperature" data with
  | none => (st, some "KeyError: temperature")
  | some temperature =>
  let st := { st with temperatures := dequeAppend st.max_samples st.temperatures temperature }
  match List.lookup "pressure" data with
  | none => (st, some "KeyError: pressure")
  | some pressure =>
  let st := { st with pressures := dequeAppend st.max_samples st.pressures pressure }
  match List.lookup "humidity" data with
  | none => (st, some "KeyError: humidity")
  | some humidity =>
  let st := { st with humidities := dequeAppend st.max_samples st.humidities humidity }
  match List.lookup "light" data with
  | none => (st, some "KeyError: light")
  | some light =>
  let st := { st with light_levels := dequeAppend st.max_samples st.light_levels light }
  match List.lookup "proximity" data with
  | none => (st, some "KeyError: proximity")
  | some proximity =>
  let st := { st with proximities := dequeAppend st.max_samples st.proximities proximity }
  match List.lookup "gas_oxidising" data with
  | none => (st, some "KeyError: gas_oxidising")
  | some gasOx =>
  let st := { st with gas_oxidising := dequeAppend st.max_samples st.gas_oxidising gasOx }
  match List.lookup "gas_reducing" data with
  | none => (st, some "KeyError: gas_reducing")
  | some gasRed =>
  let st := { st with gas_reducing := dequeAppend st.max_samples st.gas_reducing gasRed }
  match List.lookup "gas_nh3" data with
  | none => (st, some "KeyError: gas_nh3")
  | some gasNh3 =>
  let st := { st with gas_nh3 := dequeAppend st.max_samples st.gas_nh3 gasNh3 }
  match List.lookup "pm1" data with
  | none => (st, some "KeyError: pm1")
  | some vpm1 =>
  let st := { st with pm1 := dequeAppend st.max_samples st.pm1 vpm1 }
  match List.lookup "pm2_5" data with
  | none => (st, some "KeyError: pm2_5")
  | some vpm25 =>
  let st := { st with pm2_5 := dequeAppend st.max_samples st.pm2_5 vpm25 }
  match List.lookup "pm10" data with
  | none => (st, some "KeyError: pm10")
  | some vpm10 =>
  ({ st with pm10 := dequeAppend st.max_samples st.pm10 vpm10 }, none)

/-- The effect of `add_sample` on a complete reading: one `dequeAppend`
per sequence. -/
def addReading (st : SensorDataManager) (now : Nat) (r : Reading) :
    SensorDataManager :=
  { st with
    timestamps := dequeAppend st.max_samples st.timestamps now,
    temperatures := dequeAppend st.max_samples st.temperatures r.temperature,
    pressures := dequeAppend st.max_samples st.pressures r.pressure,
    humidities := dequeAppend st.max_samples st.humidities r.humidity,
    light_levels := dequeAppend st.max_samples st.light_levels r.light,
    proximities := dequeAppend st.max_samples st.proximities r.proximity,
    gas_oxidising := dequeAppend st.max_samples st.gas_oxidising r.gas_oxidising,
    gas_reducing := dequeAppend st.max_samples st.gas_reducing r.gas_reducing,
    gas_nh3 := dequeAppend st.max_samples st.gas_nh3 r.gas_nh3,
    pm1 := dequeAppend st.max_samples st.pm1 r.pm1,
    pm2_5 := dequeAppend st.max_samples st.pm2_5 r.pm2_5,
    pm10 := dequeAppend st.max_samples st.pm10 r.pm10 }

/-- `add_sample` over a list of timestamped complete readings, oldest
first (a sequence of acquisition-loop cycles). -/
def runAdds (st : SensorDataManager) : List (Nat × Reading) → SensorDataManager
  | [] => st
  | a :: rest => runAdds (add_sample st a.1 a.2.toDict).1 rest

/-- The dict of fresh list copies returned by `get_data`
(app_enviro.py lines 130-146). -/
structure Snapshot where
  timestamps : List Nat
  temperatures : List ℚ
  pressures : List ℚ
  humidities : List ℚ
  light_levels : List ℚ
  proximities : List ℚ
  gas_oxidising : List ℚ
  gas_reducing : List ℚ
  gas_nh3 : List ℚ
  pm1 : List ℚ
  pm2_5 : List ℚ
  pm10 : List ℚ
deriving DecidableEq

/-- `SensorDataManager.get_data`: a consistent copy of every sequence. -/
def get_data (st : SensorDataManager) : Snapshot :=
  { timestamps := st.timestamps, temperatures := st.temperatures,
    pressures := st.pressures, humidities := st.humidities,
    light_levels := st.light_levels, proximities := st.proximities,
    gas_oxidising := st.gas_oxidising, gas_reducing := st.gas_reducing,
    gas_nh3 := st.gas_nh3, pm1 := st.pm1, pm2_5 := st.pm2_5,
    pm10 := st.pm10 }

/-- Python `min` over a non-empty list (left fold; the `[]` case never
arises in `calc_stats`, which guards on emptiness first). -/
def listMin : List ℚ → ℚ
  | [] => 0
  | x :: xs => xs.foldl min x

/-- Python `max` over a non-empty list. -/
def listMax : List ℚ → ℚ
  | [] => 0
  | x :: xs => xs.foldl max x

/-- The per-metric statistics dict of `calc_stats`
(app_enviro.py lines 246-255): `values[-1]`, `min(values)`,
`max(values)`, `sum(values)/len(values)`, with an all-zero dict for an
empty list. -/
structure MetricStats where
  current : ℚ
  min : ℚ
  max : ℚ
  avg : ℚ
deriving DecidableEq

def calc_stats (values : List ℚ) : MetricStats :=
  if values.isEmpty then
    { current := 0, min := 0, max := 0, avg := 0 }
  else
    { current := values.getLast!, min := listMin values,
      max := listMax values,
      avg := values.sum / (values.length : ℚ) }

/-- The per-metric block of the `/api/stats` response
(app_enviro.py lines 257-273). -/
structure StatsMap where
  temperature : MetricStats
  pressure : MetricStats
  humidity : MetricStats
  light : MetricStats
  proximity : MetricStats
  gas_oxidising : MetricStats
  gas_reducing : MetricStats
  gas_nh3 : MetricStats
  pm1 : MetricStats
  pm2_5 : MetricStats
  pm10 : MetricStats
  sample_count : Nat
  max_samples : Nat
  first_sample : Option Nat
  last_sample : Option Nat
deriving DecidableEq

/-- Result of the `/api/stats` handler: either the distinct "no data"
response `{'message': ..., 'sample_count': 0}` or the statistics dict. -/
inductive StatsResult where
  | noData (message : String) (sample_count : Nat)
  | ok (m : StatsMap)
deriving DecidableEq

/-- `get_stats` (app_enviro.py lines 235-275): takes a snapshot, answers
"no data" when the temperature sequence is empty, otherwise computes
`calc_stats` per metric.  Total: never raises, and the empty-window
division is never reached on the empty store. -/
def get_stats (st : SensorDataManager) : StatsResult :=
  let data := get_data st
  if data.temperatures.isEmpty then
    .noData "No data available yet" 0
  else
    .ok { temperature := calc_stats data.temperatures,
          pressure := calc_stats data.pressures,
          humidity := calc_stats data.humidities,
          light := calc_stats data.light_levels,
          proximity := calc_stats data.proximities,
          gas_oxidising := calc_stats data.gas_oxidising,
          gas_reducing := calc_stats data.gas_reducing,
          gas_nh3 := calc_stats data.gas_nh3,
          pm1 := calc_stats data.pm1,
          pm2_5 := calc_stats data.pm2_5,
          pm10 := calc_stats data.pm10,
          sample_count := data.timestamps.length,
          max_samples := st.max_samples,
          first_sample := data.timestamps.head?,
          last_sample := data.timestamps.getLast? }

/-- `SensorDataManager.start` (app_enviro.py lines 181-187): when not
running, set the flag and spawn the polling thread (counted by
`threads_spawned`); otherwise do nothing. -/
def start (st : SensorDataManager) : SensorDataManager :=
  if st.running then st
  else { st with running := true, threads_spawned := st.threads_spawned + 1 }

/-- `SensorDataManager.stop` (app_enviro.py lines 189-195): clear the
running flag (the join and sensor cleanup have no effect on this state). -/
def stop (st : SensorDataManager) : SensorDataManager :=
  { st with running := false }

/-- One iteration of `polling_loop` (app_enviro.py lines 148-179).
`data` is the value `read_sensors()` returned: `none` models a read
failure (`read_sensors` caught an exception and returned None) and
`some d` a returned dict; an empty dict is falsy like None.  The result
pairs the state after the iteration with the seconds slept: the
`time.sleep(polling_interval)` at the end of the `try` body, or
`time.sleep(5)` in the `except` branch, which is reached only when an
exception escapes the body — `add_sample` raising `KeyError` on a
non-empty dict with a missing key (the LCD call swallows its own
errors, and a falsy `data` skips the sample but still reaches the
normal sleep). -/
def polling_cycle (st : SensorDataManager) (now : Nat) (data : Option Dict) :
    SensorDataManager × Nat :=
  match data with
  | none => (st, st.polling_interval)
  | some d =>
    if d.isEmpty then (st, st.polling_interval)
    else
      match add_sample st now d with
      | (st2, none) => (st2, st.polling_interval)
      | (st2, some _) => (st2, 5)

/-- The buffer invariant: every per-metric sequence has the same length
as the timestamp sequence, and that length is at most `max_samples`. -/
def WF (st : SensorDataManager) : Prop :=
  st.timestamps.length ≤ st.max_samples ∧
  st.temperatures.length = st.timestamps.length ∧
  st.pressures.length = st.timestamps.length ∧
  st.humidities.length = st.timestamps.length ∧
  st.light_levels.length = st.timestamps.length ∧
  st.proximities.length = st.timestamps.length ∧
  st.gas_oxidising.length = st.timestamps.length ∧
  st.gas_reducing.length = st.timestamps.length ∧
  st.gas_nh3.length = st.timestamps.length ∧
  st.pm1.length = st.timestamps.length ∧
  st.pm2_5.length = st.timestamps.length ∧
  st.pm10.length = st.timestamps.length

instance (st : SensorDataManager) : Decidable (WF st) := by
  unfold WF; infer_instance

/-- The gas sub-dict that `EnviroSensors.read_gas` returns on success
(enviro_sensors.py lines 183-206). -/
structure GasReading where
  oxidising : ℚ
  reducing : ℚ
  nh3 : ℚ
deriving DecidableEq

/-- The particulate sub-dict that `EnviroSensors.read_particulates`
returns on success (enviro_sensors.py lines 208-231). -/
structure PMReading where
  pm1 : ℚ
  pm2_5 : ℚ
  pm10 : ℚ
deriving DecidableEq

/-- The dict `EnviroSensors.read_all` returns (enviro_sensors.py lines
233-248): all seven keys are always present, but each value is the
result of the corresponding `read_*` call, which is `None` when that
sensor read raised (each `read_*` catches its own exceptions). -/
structure RawReading where
  temperature : Option ℚ
  pressure : Option ℚ
  humidity : Option ℚ
  light : Option ℚ
  proximity : Option ℚ
  gas : Option GasReading
  particulates : Option PMReading
deriving DecidableEq

/-- The dict built by the `try` body of `read_sensors`
(app_enviro.py lines 73-105), with Python's dynamic typing made
explicit: `data.get('temperature', 0)` finds the key present and passes
its value (possibly None) through, while `(data.get('gas') or {})
.get('oxidising', 0)` turns an absent gas group into zeros per field,
and likewise for particulates. -/
structure ReadingPy where
  temperature : Option ℚ
  pressure : Option ℚ
  humidity : Option ℚ
  light : Option ℚ
  proximity : Option ℚ
  gas_oxidising : ℚ
  gas_reducing : ℚ
  gas_nh3 : ℚ
  pm1 : ℚ
  pm2_5 : ℚ
  pm10 : ℚ
deriving DecidableEq

/-- `SensorDataManager.read_sensors` (app_enviro.py lines 71-108) on a
dict returned by `read_all`.  (The surrounding `try/except` returning
None cannot fire on such a dict: `.get` never raises.) -/
def read_sensors (raw : RawReading) : ReadingPy :=
  { temperature := raw.temperature,
    pressure := raw.pressure,
    humidity := raw.humidity,
    light := raw.light,
    proximity := raw.proximity,
    gas_oxidising := match raw.gas with | none => 0 | some g => g.oxidising,
    gas_reducing := match raw.gas with | none => 0 | some g => g.reducing,
    gas_nh3 := match raw.gas with | none => 0 | some g => g.nh3,
    pm1 := match raw.particulates with | none => 0 | some p => p.pm1,
    pm2_5 := match raw.particulates with | none => 0 | some p => p.pm2_5,
    pm10 := match raw.particulates with | none => 0 | some p => p.pm10 }

/-- Bridge from the dynamically typed dict to a complete numeric
reading: defined exactly when every scalar value is a number (no
sensor returned None), which is when the stored sample is numeric. -/
def ReadingPy.toReading? (rp : ReadingPy) : Option Reading :=
  match rp.temperature, rp.pressure, rp.humidity, rp.light, rp.proximity with
  | some t, some p, some h, some l, some pr =>
    some ⟨t, p, h, l, pr, rp.gas_oxidising, rp.gas_reducing, rp.gas_nh3,
          rp.pm1, rp.pm2_5, rp.pm10⟩
  | _, _, _, _, _ => none

/-- A reading with the same value for every metric (the test scenarios
feed one value per reading). -/
def Reading.const (v : ℚ) : Reading :=
  ⟨v, v, v, v, v, v, v, v, v, v, v⟩

/-- The spec's statistics scenario: `max_samples = 3`, then the four
readings with values 10, 20, 30, 40 at timestamps 1..4. -/
def scenarioStore : SensorDataManager :=
  runAdds (SensorDataManager.init 3 600)
    [(1, Reading.const 10), (2, Reading.const 20),
     (3, Reading.const 30), (4, Reading.const 40)]

/-- A `read_all` result whose scalar reads succeeded but whose gas and
particulate groups are missing (both drivers faulted). -/
def rawExample : RawReading :=
  ⟨some 21, some 1013, some 50, some 100, some 3, none, none⟩

/-- The complete zero-filled reading `read_sensors` builds from
`rawExample`. -/
def readingExample : Reading :=
  ⟨21, 1013, 50, 100, 3, 0, 0, 0, 0, 0, 0⟩

/-- A `read_all` result where only the particulate group is missing
(the PMS5003 read faulted) while the gas read succeeded. -/
def rawExample2 : RawReading :=
  ⟨some 21, some 1013, some 50, some 100, some 3,
   some ⟨15000, 150000, 120000⟩, none⟩

/-- The reading `read_sensors` builds from `rawExample2`: gas values
kept, particulate fields zero-filled. -/
def readingExample2 : Reading :=
  ⟨21, 1013, 50, 100, 3, 15000, 150000, 120000, 0, 0, 0⟩

end AppEnviro

namespace App

/-- State of the baseline `SensorDataManager` (app.py): configuration,
four bounded deques, the running flag (with the spawned-thread count as
in the extended variant), and the current values kept for the LED
display. -/
structure SensorDataManager where
  max_samples : Nat
  polling_interval : Nat
  timestamps : List Nat
  temperatures : List ℚ
  pressures : List ℚ
  humidities : List ℚ
  running : Bool
  threads_spawned : Nat
  current_temp : Option ℚ
  current_pressure : Option ℚ
  current_humidity : Option ℚ
deriving DecidableEq

/-- `SensorDataManager.__init__` (app.py lines 34-74). -/
def SensorDataManager.init (ms pi : Nat) : SensorDataManager :=
  { max_samples := ms, polling_interval := pi,
    timestamps := [], temperatures := [], pressures := [], humidities := [],
    running := false, threads_spawned := 0,
    current_temp := none, current_pressure := none, current_humidity := none }

/-- `add_sample(temp, pressure, humidity)` (app.py lines 98-110): three
positional values, appended unconditionally, then remembered for the
LED display.  Total — no failure path. -/
def add_sample (st : SensorDataManager) (now : Nat) (temp pressure humidity : ℚ) :
    SensorDataManager :=
  { st with
    timestamps := dequeAppend st.max_samples st.timestamps now,
    temperatures := dequeAppend st.max_samples st.temperatures temp,
    pressures := dequeAppend st.max_samples st.pressures pressure,
    humidities := dequeAppend st.max_samples st.humidities humidity,
    current_temp := some temp,
    current_pressure := some pressure,
    current_humidity := some humidity }

/-- The dict of copies returned by the baseline `get_data`. -/
structure Snapshot where
  timestamps : List Nat
  temperatures : List ℚ
  pressures : List ℚ
  humidities : List ℚ
deriving DecidableEq

def get_data (st : SensorDataManager) : Snapshot :=
  { timestamps := st.timestamps, temperatures := st.temperatures,
    pressures := st.pressures, humidities := st.humidities }

/-- Outcome of one attempt to use the SenseHAT in `read_sensors`
(app.py lines 76-96): the device is absent (`self.sensor` is None), a
read raises, or all three reads succeed. -/
inductive HwRead where
  | absent
  | raises
  | succeeds (temp pressure humidity : ℚ)
deriving DecidableEq

/-- `read_sensors` (app.py lines 76-96): total — on an absent device or
a raising read it falls back to `_get_mock_data()` (whose random output
is the `mock` argument); it never reports failure to the caller. -/
def read_sensors (hw : HwRead) (mock : ℚ × ℚ × ℚ) : ℚ × ℚ × ℚ :=
  match hw with
  | .absent => mock
  | .raises => mock
  | .succeeds t p h => (t, p, h)

/-- One iteration of the baseline `polling_loop` (app.py lines 184-194):
read (total), append unconditionally, print, sleep the full interval.
The `except` branch (sleep 5) is unreachable: `read_sensors` handles
faults internally, and `add_sample` and the print are total. -/
def polling_cycle (st : SensorDataManager) (now : Nat) (hw : HwRead)
    (mock : ℚ × ℚ × ℚ) : SensorDataManager × Nat :=
  let r := read_sensors hw mock
  (add_sample st now r.1 r.2.1 r.2.2, st.polling_interval)

/-- Result of the baseline `/api/stats` handler (app.py lines 334-374). -/
inductive StatsResult where
  | noData (message : String) (sample_count : Nat)
  | ok (temperature pressure humidity : AppEnviro.MetricStats)
       (sample_count : Nat) (max_samples : Nat)
       (first_sample last_sample : Option Nat)
deriving DecidableEq

/-- Baseline `get_stats` (app.py lines 334-374): "no data" on an empty
temperature list, else inline `values[-1]/min/max/avg` per metric. -/
def get_stats (st : SensorDataManager) : StatsResult :=
  let data := get_data st
  if data.temperatures.isEmpty then
    .noData "No data available yet" 0
  else
    .ok
      { current := data.temperatures.getLast!,
        min := AppEnviro.listMin data.temperatures,
        max := AppEnviro.listMax data.temperatures,
        avg := data.temperatures.sum / (data.temperatures.length : ℚ) }
      { current := data.pressures.getLast!,
        min := AppEnviro.listMin data.pressures,
        max := AppEnviro.listMax data.pressures,
        avg := data.pressures.sum / (data.pressures.length : ℚ) }
      { current := data.humidities.getLast!,
        min := AppEnviro.listMin data.humidities,
        max := AppEnviro.listMax data.humidities,
        avg := data.humidities.sum / (data.humidities.length : ℚ) }
      data.temperatures.length st.max_samples
      data.timestamps.head? data.timestamps.getLast?

end App

theorem dequeAppend_length (m : Nat) (xs : List α) (x : α) :
    (dequeAppend m xs x).length = min (xs.length + 1) m := by
  simp [dequeAppend]
  omega

/-- Folding `dequeAppend` over a list of new elements keeps the suffix of
the combined list that fits in the capacity. -/
theorem foldl_dequeAppend (m : Nat) :
    ∀ (ys xs : List α), xs.length ≤ m →
      List.foldl (dequeAppend m) xs ys =
        (xs ++ ys).drop (xs.length + ys.length - m)
  | [], xs, h => by
    simp [Nat.sub_eq_zero_of_le h]
  | y :: ys, xs, h => by
    rw [List.foldl_cons, foldl_dequeAppend m ys (dequeAppend m xs y)
      (by rw [dequeAppend_length]; omega)]
    rw [dequeAppend_length]
    show ((xs ++ [y]).drop (xs.length + 1 - m) ++ ys).drop _ = _
    rw [← List.drop_append_of_le_length (by simp), List.drop_drop]
    have : xs ++ y :: ys = (xs ++ [y]) ++ ys := by simp
    rw [this]
    congr 1
    simp
    omega

namespace AppEnviro

theorem add_sample_toDict (st : SensorDataManager) (now : Nat) (r : Reading) :
    add_sample st now r.toDict = (addReading st now r, none) := by
  rfl

theorem runAdds_fields :
    ∀ (adds : List (Nat × Reading)) (st : SensorDataManager),
      (runAdds st adds).max_samples = st.max_samples ∧
      (runAdds st adds).polling_interval = st.polling_interval ∧
      (runAdds st adds).running = st.running ∧
      (runAdds st adds).timestamps =
        List.foldl (dequeAppend st.max_samples) st.timestamps (adds.map Prod.fst) ∧
      (runAdds st adds).temperatures =
        List.foldl (dequeAppend st.max_samples) st.temperatures
          (adds.map fun a => a.2.temperature) ∧
      (runAdds st adds).pressures =
        List.foldl (dequeAppend st.max_samples) st.pressures
          (adds.map fun a => a.2.pressure) ∧
      (runAdds st adds).humidities =
        List.foldl (dequeAppend st.max_samples) st.humidities
          (adds.map fun a => a.2.humidity) ∧
      (runAdds st adds).light_levels =
        List.foldl (dequeAppend st.max_samples) st.light_levels
          (adds.map fun a => a.2.light) ∧
      (runAdds st adds).proximities =
        List.foldl (dequeAppend st.max_samples) st.proximities
          (adds.map fun a => a.2.proximity) ∧
      (runAdds st adds).gas_oxidising =
        List.foldl (dequeAppend st.max_samples) st.gas_oxidising
          (adds.map fun a => a.2.gas_oxidising) ∧
      (runAdds st adds).gas_reducing =
        List.foldl (dequeAppend st.max_samples) st.gas_reducing
          (adds.map fun a => a.2.gas_reducing) ∧
      (runAdds st adds).gas_nh3 =
        List.foldl (dequeAppend st.max_samples) st.gas_nh3
          (adds.map fun a => a.2.gas_nh3) ∧
      (runAdds st adds).pm1 =
        List.foldl (dequeAppend st.max_samples) st.pm1
          (adds.map fun a => a.2.pm1) ∧
      (runAdds st adds).pm2_5 =
        List.foldl (dequeAppend st.max_samples) st.pm2_5
          (adds.map fun a => a.2.pm2_5) ∧
      (runAdds st adds).pm10 =
        List.foldl (dequeAppend st.max_samples) st.pm10
          (adds.map fun a => a.2.pm10)
  | [], st => by simp [runAdds]
  | a :: rest, st => by
    have ih := runAdds_fields rest (addReading st a.1 a.2)
    simp only [runAdds, add_sample_toDict, List.map_cons, List.foldl_cons]
    simpa [addReading] using ih

theorem addReading_WF (st : SensorDataManager) (now : Nat) (r : Reading)
    (h : WF st) : WF (addReading st now r) := by
  obtain ⟨h0, h1, h2, h3, h4, h5, h6, h7, h8, h9, h10, h11⟩ := h
  refine ⟨?_, ?_, ?_, ?_, ?_, ?_, ?_, ?_, ?_, ?_, ?_, ?_⟩ <;>
    simp [addReading, dequeAppend_length, h1, h2, h3, h4, h5, h6, h7, h8,
      h9, h10, h11]

theorem runAdds_WF :
    ∀ (adds : List (Nat × Reading)) (st : SensorDataManager),
      WF st → WF (runAdds st adds)
  | [], _, h => h
  | a :: rest, st, h => by
    simp only [runAdds, add_sample_toDict]
    exact runAdds_WF rest _ (addReading_WF st a.1 a.2 h)

theorem init_WF (ms pi : Nat) : WF (SensorDataManager.init ms pi) := by
  simp [WF, SensorDataManager.init]

theorem foldl_min_le_init :
    ∀ (l : List ℚ) (a : ℚ), List.foldl min a l ≤ a
  | [], _ => le_refl _
  | x :: xs, a =>
    le_trans (foldl_min_le_init xs (min a x)) (min_le_left a x)

theorem foldl_min_le_mem :
    ∀ (l : List ℚ) (a y : ℚ), y ∈ l → List.foldl min a l ≤ y
  | x :: xs, a, y, h => by
    rw [List.foldl_cons]
    rcases List.mem_cons.1 h with rfl | h'
    · exact le_trans (foldl_min_le_init xs (min a y)) (min_le_right a y)
    · exact foldl_min_le_mem xs (min a x) y h'

theorem foldl_min_eq_or_mem :
    ∀ (l : List ℚ) (a : ℚ), List.foldl min a l = a ∨ List.foldl min a l ∈ l
  | [], _ => Or.inl rfl
  | x :: xs, a => by
    rw [List.foldl_cons]
    rcases foldl_min_eq_or_mem xs (min a x) with h | h
    · rcases min_choice a x with hc | hc
      · exact Or.inl (h.trans hc)
      · exact Or.inr (List.mem_cons.2 (Or.inl (h.trans hc)))
    · exact Or.inr (List.mem_cons_of_mem x h)

theorem foldl_max_ge_init :
    ∀ (l : List ℚ) (a : ℚ), a ≤ List.foldl max a l
  | [], _ => le_refl _
  | x :: xs, a =>
    le_trans (le_max_left a x) (foldl_max_ge_init xs (max a x))

theorem foldl_max_ge_mem :
    ∀ (l : List ℚ) (a y : ℚ), y ∈ l → y ≤ List.foldl max a l
  | x :: xs, a, y, h => by
    rw [List.foldl_cons]
    rcases List.mem_cons.1 h with rfl | h'
    · exact le_trans (le_max_right a y) (foldl_max_ge_init xs (max a y))
    · exact foldl_max_ge_mem xs (max a x) y h'

theorem foldl_max_eq_or_mem :
    ∀ (l : List ℚ) (a : ℚ), List.foldl max a l = a ∨ List.foldl max a l ∈ l
  | [], _ => Or.inl rfl
  | x :: xs, a => by
    rw [List.foldl_cons]
    rcases foldl_max_eq_or_mem xs (max a x) with h | h
    · rcases max_choice a x with hc | hc
      · exact Or.inl (h.trans hc)
      · exact Or.inr (List.mem_cons.2 (Or.inl (h.trans hc)))
    · exact Or.inr (List.mem_cons_of_mem x h)

theorem listMin_mem : ∀ (l : List ℚ), l ≠ [] → listMin l ∈ l
  | x :: xs, _ => by
    rcases foldl_min_eq_or_mem xs x with h | h
    · exact List.mem_cons.2 (Or.inl h)
    · exact List.mem_cons_of_mem x h

theorem listMin_le (l : List ℚ) (y : ℚ) (hy : y ∈ l) : listMin l ≤ y := by
  match l, hy with
  | x :: xs, hy =>
    rcases List.mem_cons.1 hy with rfl | h'
    · exact foldl_min_le_init xs y
    · exact foldl_min_le_mem xs x y h'

theorem listMax_mem : ∀ (l : List ℚ), l ≠ [] → listMax l ∈ l
  | x :: xs, _ => by
    rcases foldl_max_eq_or_mem xs x with h | h
    · exact List.mem_cons.2 (Or.inl h)
    · exact List.mem_cons_of_mem x h

theorem listMax_ge (l : List ℚ) (y : ℚ) (hy : y ∈ l) : y ≤ listMax l := by
  match l, hy with
  | x :: xs, hy =>
    rcases List.mem_cons.1 hy with rfl | h'
    · exact foldl_max_ge_init xs y
    · exact foldl_max_ge_mem xs x y h'

theorem foldl_dequeAppend_nil (m : Nat) (ys : List α) :
    List.foldl (dequeAppend m) [] ys = ys.drop (ys.length - m) := by
  have h := foldl_dequeAppend m ys [] (by simp)
  simpa using h

/-- Every sequence of the store built from `init` by adding readings is
the suffix of the corresponding full sequence of additions that fits in
`max_samples`. -/
theorem runAdds_init_drop (ms pi : Nat) (adds : List (Nat × Reading)) :
    (runAdds (SensorDataManager.init ms pi) adds).timestamps =
      (adds.map Prod.fst).drop (adds.length - ms) ∧
    (runAdds (SensorDataManager.init ms pi) adds).temperatures =
      (adds.map fun a => a.2.temperature).drop (adds.length - ms) ∧
    (runAdds (SensorDataManager.init ms pi) adds).pressures =
      (adds.map fun a => a.2.pressure).drop (adds.length - ms) ∧
    (runAdds (SensorDataManager.init ms pi) adds).humidities =
      (adds.map fun a => a.2.humidity).drop (adds.length - ms) ∧
    (runAdds (SensorDataManager.init ms pi) adds).light_levels =
      (adds.map fun a => a.2.light).drop (adds.length - ms) ∧
    (runAdds (SensorDataManager.init ms pi) adds).proximities =
      (adds.map fun a => a.2.proximity).drop (adds.length - ms) ∧
    (runAdds (SensorDataManager.init ms pi) adds).gas_oxidising =
      (adds.map fun a => a.2.gas_oxidising).drop (adds.length - ms) ∧
    (runAdds (SensorDataManager.init ms pi) adds).gas_reducing =
      (adds.map fun a => a.2.gas_reducing).drop (adds.length - ms) ∧
    (runAdds (SensorDataManager.init ms pi) adds).gas_nh3 =
      (adds.map fun a => a.2.gas_nh3).drop (adds.length - ms) ∧
    (runAdds (SensorDataManager.init ms pi) adds).pm1 =
      (adds.map fun a => a.2.pm1).drop (adds.length - ms) ∧
    (runAdds (SensorDataManager.init ms pi) adds).pm2_5 =
      (adds.map fun a => a.2.pm2_5).drop (adds.length - ms) ∧
    (runAdds (SensorDataManager.init ms pi) adds).pm10 =
      (adds.map fun a => a.2.pm10).drop (adds.length - ms) := by
  obtain ⟨-, -, -, h3, h4, h5, h6, h7, h8, h9, h10, h11, h12, h13, h14⟩ :=
    runAdds_fields adds (SensorDataManager.init ms pi)
  rw [h3, h4, h5, h6, h7, h8, h9, h10, h11, h12, h13, h14]
  simp [SensorDataManager.init, foldl_dequeAppend_nil]

end AppEnviro

namespace AppEnviro

/-- C1: starting from the freshly initialised store, every sequence of
`add_sample` calls on complete readings leaves the timestamp sequence
and all eleven per-metric sequences with one identical length, bounded
by `max_samples`; and on every store satisfying that invariant,
`get_data` returns sequences that all have this same length. -/
theorem addSample_preserves_length_invariant :
    (∀ (ms pi : Nat) (adds : List (Nat × Reading)),
        WF (runAdds (SensorDataManager.init ms pi) adds)) ∧
    (∀ st : SensorDataManager, WF st →
        (get_data st).timestamps.length ≤ st.max_samples ∧
        (get_data st).temperatures.length = (get_data st).timestamps.length ∧
        (get_data st).pressures.length = (get_data st).timestamps.length ∧
        (get_data st).humidities.length = (get_data st).timestamps.length ∧
        (get_data st).light_levels.length = (get_data st).timestamps.length ∧
        (get_data st).proximities.length = (get_data st).timestamps.length ∧
        (get_data st).gas_oxidising.length = (get_data st).timestamps.length ∧
        (get_data st).gas_reducing.length = (get_data st).timestamps.length ∧
        (get_data st).gas_nh3.length = (get_data st).timestamps.length ∧
        (get_data st).pm1.length = (get_data st).timestamps.length ∧
        (get_data st).pm2_5.length = (get_data st).timestamps.length ∧
        (get_data st).pm10.length = (get_data st).timestamps.length) := by
  constructor
  · intro ms pi adds
    exact runAdds_WF adds _ (init_WF ms pi)
  · intro st h
    simpa [get_data, WF] using h

theorem addSample_preserves_length_invariant_witness :
    WF (runAdds (SensorDataManager.init 2 60)
        [(1, Reading.const 10), (2, Reading.const 20), (3, Reading.const 30)]) ∧
    ((get_data (SensorDataManager.init 2 60)).timestamps.length ≤ 2 ∧
     (get_data (SensorDataManager.init 2 60)).temperatures.length =
       (get_data (SensorDataManager.init 2 60)).timestamps.length ∧
     (get_data (SensorDataManager.init 2 60)).pressures.length =
       (get_data (SensorDataManager.init 2 60)).timestamps.length ∧
     (get_data (SensorDataManager.init 2 60)).humidities.length =
       (get_data (SensorDataManager.init 2 60)).timestamps.length ∧
     (get_data (SensorDataManager.init 2 60)).light_levels.length =
       (get_data (SensorDataManager.init 2 60)).timestamps.length ∧
     (get_data (SensorDataManager.init 2 60)).proximities.length =
       (get_data (SensorDataManager.init 2 60)).timestamps.length ∧
     (get_data (SensorDataManager.init 2 60)).gas_oxidising.length =
       (get_data (SensorDataManager.init 2 60)).timestamps.length ∧
     (get_data (SensorDataManager.init 2 60)).gas_reducing.length =
       (get_data (SensorDataManager.init 2 60)).timestamps.length ∧
     (get_data (SensorDataManager.init 2 60)).gas_nh3.length =
       (get_data (SensorDataManager.init 2 60)).timestamps.length ∧
     (get_data (SensorDataManager.init 2 60)).pm1.length =
       (get_data (SensorDataManager.init 2 60)).timestamps.length ∧
     (get_data (SensorDataManager.init 2 60)).pm2_5.length =
       (get_data (SensorDataManager.init 2 60)).timestamps.length ∧
     (get_data (SensorDataManager.init 2 60)).pm10.length =
       (get_data (SensorDataManager.init 2 60)).timestamps.length) :=
  ⟨addSample_preserves_length_invariant.1 2 60
      [(1, Reading.const 10), (2, Reading.const 20), (3, Reading.const 30)],
   addSample_preserves_length_invariant.2 (SensorDataManager.init 2 60)
      (by decide)⟩

/-- C2: from the empty store, after `N` `add_sample` calls on complete
readings, every sequence has length `N` and holds all additions in
insertion order when `N ≤ max_samples`; when `N > max_samples`, every
sequence has length exactly `max_samples` and holds the most recent
`max_samples` additions in insertion order, the oldest evicted first. -/
theorem runAdds_snapshot_contents (ms pi : Nat) (adds : List (Nat × Reading)) :
    (adds.length ≤ ms →
      (runAdds (SensorDataManager.init ms pi) adds).timestamps =
        adds.map Prod.fst ∧
      (runAdds (SensorDataManager.init ms pi) adds).temperatures =
        (adds.map fun a => a.2.temperature) ∧
      (runAdds (SensorDataManager.init ms pi) adds).pressures =
        (adds.map fun a => a.2.pressure) ∧
      (runAdds (SensorDataManager.init ms pi) adds).humidities =
        (adds.map fun a => a.2.humidity) ∧
      (runAdds (SensorDataManager.init ms pi) adds).light_levels =
        (adds.map fun a => a.2.light) ∧
      (runAdds (SensorDataManager.init ms pi) adds).proximities =
        (adds.map fun a => a.2.proximity) ∧
      (runAdds (SensorDataManager.init ms pi) adds).gas_oxidising =
        (adds.map fun a => a.2.gas_oxidising) ∧
      (runAdds (SensorDataManager.init ms pi) adds).gas_reducing =
        (adds.map fun a => a.2.gas_reducing) ∧
      (runAdds (SensorDataManager.init ms pi) adds).gas_nh3 =
        (adds.map fun a => a.2.gas_nh3) ∧
      (runAdds (SensorDataManager.init ms pi) adds).pm1 =
        (adds.map fun a => a.2.pm1) ∧
      (runAdds (SensorDataManager.init ms pi) adds).pm2_5 =
        (adds.map fun a => a.2.pm2_5) ∧
      (runAdds (SensorDataManager.init ms pi) adds).pm10 =
        (adds.map fun a => a.2.pm10) ∧
      (runAdds (SensorDataManager.init ms pi) adds).timestamps.length =
        adds.length) ∧
    (ms < adds.length →
      (runAdds (SensorDataManager.init ms pi) adds).timestamps =
        (adds.map Prod.fst).drop (adds.length - ms) ∧
      (runAdds (SensorDataManager.init ms pi) adds).temperatures =
        (adds.map fun a => a.2.temperature).drop (adds.length - ms) ∧
      (runAdds (SensorDataManager.init ms pi) adds).pressures =
        (adds.map fun a => a.2.pressure).drop (adds.length - ms) ∧
      (runAdds (SensorDataManager.init ms pi) adds).humidities =
        (adds.map fun a => a.2.humidity).drop (adds.length - ms) ∧
      (runAdds (SensorDataManager.init ms pi) adds).light_levels =
        (adds.map fun a => a.2.light).drop (adds.length - ms) ∧
      (runAdds (SensorDataManager.init ms pi) adds).proximities =
        (adds.map fun a => a.2.proximity).drop (adds.length - ms) ∧
      (runAdds (SensorDataManager.init ms pi) adds).gas_oxidising =
        (adds.map fun a => a.2.gas_oxidising).drop (adds.length - ms) ∧
      (runAdds (SensorDataManager.init ms pi) adds).gas_reducing =
        (adds.map fun a => a.2.gas_reducing).drop (adds.length - ms) ∧
      (runAdds (SensorDataManager.init ms pi) adds).gas_nh3 =
        (adds.map fun a => a.2.gas_nh3).drop (adds.length - ms) ∧
      (runAdds (SensorDataManager.init ms pi) adds).pm1 =
        (adds.map fun a => a.2.pm1).drop (adds.length - ms) ∧
      (runAdds (SensorDataManager.init ms pi) adds).pm2_5 =
        (adds.map fun a => a.2.pm2_5).drop (adds.length - ms) ∧
      (runAdds (SensorDataManager.init ms pi) adds).pm10 =
        (adds.map fun a => a.2.pm10).drop (adds.length - ms) ∧
      (runAdds (SensorDataManager.init ms pi) adds).timestamps.length = ms) := by
  obtain ⟨h0, h1, h2, h3, h4, h5, h6, h7, h8, h9, h10, h11⟩ :=
    runAdds_init_drop ms pi adds
  constructor
  · intro hle
    have hz : adds.length - ms = 0 := by omega
    rw [hz, List.drop_zero] at h0 h1 h2 h3 h4 h5 h6 h7 h8 h9 h10 h11
    refine ⟨h0, h1, h2, h3, h4, h5, h6, h7, h8, h9, h10, h11, ?_⟩
    rw [h0]; simp
  · intro hgt
    refine ⟨h0, h1, h2, h3, h4, h5, h6, h7, h8, h9, h10, h11, ?_⟩
    rw [h0]; simp; omega

theorem runAdds_snapshot_contents_witness :
    (runAdds (SensorDataManager.init 5 60)
        [(1, Reading.const 10), (2, Reading.const 20)]).timestamps = [1, 2] ∧
    (runAdds (SensorDataManager.init 2 60)
        [(1, Reading.const 10), (2, Reading.const 20), (3, Reading.const 30)]
      ).temperatures = [20, 30] ∧
    (runAdds (SensorDataManager.init 2 60)
        [(1, Reading.const 10), (2, Reading.const 20), (3, Reading.const 30)]
      ).timestamps.length = 2 := by
  refine ⟨?_, ?_, ?_⟩
  · exact ((runAdds_snapshot_contents 5 60
      [(1, Reading.const 10), (2, Reading.const 20)]).1 (by decide)).1
  · exact (((runAdds_snapshot_contents 2 60
      [(1, Reading.const 10), (2, Reading.const 20), (3, Reading.const 30)]).2
        (by decide)).2).1
  · obtain ⟨-, -, -, -, -, -, -, -, -, -, -, -, hlen⟩ :=
      (runAdds_snapshot_contents 2 60
        [(1, Reading.const 10), (2, Reading.const 20), (3, Reading.const 30)]).2
          (by decide)
    exact hlen

/-- C3: on a non-empty store, `get_stats` reports, for every metric, the
`calc_stats` of that metric's snapshot sequence, where `calc_stats` of a
non-empty sequence has `current` equal to the last element, `min`/`max`
an attained lower/upper bound of the window, and `avg` the sum divided
by the count; and in the `max_samples = 3`, values 10/20/30/40 scenario
the snapshot is `[20, 30, 40]` with statistics current 40, min 20,
max 40, avg 30. -/
theorem get_stats_correct :
    (∀ values : List ℚ, values ≠ [] →
      (calc_stats values).current = values.getLast! ∧
      (calc_stats values).min ∈ values ∧
      (∀ x ∈ values, (calc_stats values).min ≤ x) ∧
      (calc_stats values).max ∈ values ∧
      (∀ x ∈ values, x ≤ (calc_stats values).max) ∧
      (calc_stats values).avg = values.sum / (values.length : ℚ)) ∧
    (∀ (st : SensorDataManager) (m : StatsMap), WF st →
      get_stats st = .ok m →
      (m.temperature = calc_stats (get_data st).temperatures ∧
         (get_data st).temperatures ≠ []) ∧
      (m.pressure = calc_stats (get_data st).pressures ∧
         (get_data st).pressures ≠ []) ∧
      (m.humidity = calc_stats (get_data st).humidities ∧
         (get_data st).humidities ≠ []) ∧
      (m.light = calc_stats (get_data st).light_levels ∧
         (get_data st).light_levels ≠ []) ∧
      (m.proximity = calc_stats (get_data st).proximities ∧
         (get_data st).proximities ≠ []) ∧
      (m.gas_oxidising = calc_stats (get_data st).gas_oxidising ∧
         (get_data st).gas_oxidising ≠ []) ∧
      (m.gas_reducing = calc_stats (get_data st).gas_reducing ∧
         (get_data st).gas_reducing ≠ []) ∧
      (m.gas_nh3 = calc_stats (get_data st).gas_nh3 ∧
         (get_data st).gas_nh3 ≠ []) ∧
      (m.pm1 = calc_stats (get_data st).pm1 ∧
         (get_data st).pm1 ≠ []) ∧
      (m.pm2_5 = calc_stats (get_data st).pm2_5 ∧
         (get_data st).pm2_5 ≠ []) ∧
      (m.pm10 = calc_stats (get_data st).pm10 ∧
         (get_data st).pm10 ≠ [])) ∧
    ((get_data scenarioStore).temperatures = [20, 30, 40] ∧
      ∃ m : StatsMap, get_stats scenarioStore = .ok m ∧
        m.temperature.current = 40 ∧ m.temperature.min = 20 ∧
        m.temperature.max = 40 ∧ m.temperature.avg = 30) := by
  refine ⟨?_, ?_, ?_, ?_⟩
  · intro values hne
    have hemp : values.isEmpty = false := by
      simpa [List.isEmpty_iff] using hne
    refine ⟨by simp [calc_stats, hemp], ?_, ?_, ?_, ?_, by simp [calc_stats, hemp]⟩
    · simpa [calc_stats, hemp] using listMin_mem values hne
    · intro x hx; simpa [calc_stats, hemp] using listMin_le values x hx
    · simpa [calc_stats, hemp] using listMax_mem values hne
    · intro x hx; simpa [calc_stats, hemp] using listMax_ge values x hx
  · intro st m hwf hok
    obtain ⟨-, h1, h2, h3, h4, h5, h6, h7, h8, h9, h10, h11⟩ := hwf
    by_cases he : (get_data st).temperatures.isEmpty
    · simp [get_stats, he] at hok
    · simp only [get_stats, he, if_neg, Bool.false_eq_true, if_false,
        StatsResult.ok.injEq] at hok
      have hlen : 0 < st.timestamps.length := by
        have : (get_data st).temperatures ≠ [] := by
          simpa [List.isEmpty_iff] using he
        have := List.length_pos.2 this
        simp [get_data] at this
        omega
      subst hok
      refine ⟨⟨rfl, ?_⟩, ⟨rfl, ?_⟩, ⟨rfl, ?_⟩, ⟨rfl, ?_⟩, ⟨rfl, ?_⟩,
        ⟨rfl, ?_⟩, ⟨rfl, ?_⟩, ⟨rfl, ?_⟩, ⟨rfl, ?_⟩, ⟨rfl, ?_⟩, ⟨rfl, ?_⟩⟩ <;>
        simp only [get_data] <;> rw [← List.length_pos] <;> omega
  · decide
  · refine ⟨_, rfl, by decide, by decide, by decide, ?_⟩
    show (List.sum [(20 : ℚ), 30, 40]) / ((3 : Nat) : ℚ) = 30
    norm_num [List.sum_cons]

/-- Witness for the hypotheses of `get_stats_correct`: its first two
parts applied at the scenario store. -/
theorem get_stats_correct_witness :
    (calc_stats [(20 : ℚ), 30, 40]).current = ([20, 30, 40] : List ℚ).getLast! ∧
    ∃ m : StatsMap, get_stats scenarioStore = .ok m ∧
      m.temperature = calc_stats (get_data scenarioStore).temperatures := by
  refine ⟨(get_stats_correct.1 [20, 30, 40] (by decide)).1, ?_⟩
  exact ⟨_, rfl, ((get_stats_correct.2.1 scenarioStore _ (by decide) rfl).1).1⟩

/-- `add_sample` never touches the configuration, the running flag or
the thread count, on any of its paths (early return, any `KeyError`,
success). -/
theorem add_sample_config (st : SensorDataManager) (now : Nat) (d : Dict) :
    (add_sample st now d).1.max_samples = st.max_samples ∧
    (add_sample st now d).1.polling_interval = st.polling_interval ∧
    (add_sample st now d).1.running = st.running ∧
    (add_sample st now d).1.threads_spawned = st.threads_spawned := by
  unfold add_sample
  repeat' split
  all_goals simp

/-- The polling cycle never touches the configuration, the running flag
or the thread count. -/
theorem polling_cycle_config (st : SensorDataManager) (now : Nat)
    (dat : Option Dict) :
    (polling_cycle st now dat).1.max_samples = st.max_samples ∧
    (polling_cycle st now dat).1.polling_interval = st.polling_interval ∧
    (polling_cycle st now dat).1.running = st.running ∧
    (polling_cycle st now dat).1.threads_spawned = st.threads_spawned := by
  cases dat with
  | none => exact ⟨rfl, rfl, rfl, rfl⟩
  | some d =>
    have hc := add_sample_config st now d
    by_cases he : d.isEmpty
    · simp [polling_cycle, he]
    · rcases hsa : add_sample st now d with ⟨st2, e⟩
      rw [hsa] at hc
      cases e <;> simp [polling_cycle, he, hsa] <;> exact hc

/-- C4: on an empty store, the statistics endpoint of either variant
returns the distinct "no data" result with `sample_count` 0 instead of
per-metric statistics; both `get_stats` functions are total (they never
raise), and the division by the window size is guarded away on the
empty store. -/
theorem get_stats_empty_no_data :
    (∀ st : SensorDataManager, (get_data st).temperatures = [] →
        get_stats st = StatsResult.noData "No data available yet" 0) ∧
    (∀ st : App.SensorDataManager, (App.get_data st).temperatures = [] →
        App.get_stats st = App.StatsResult.noData "No data available yet" 0) := by
  constructor
  · intro st h
    simp [get_stats, h]
  · intro st h
    simp [App.get_stats, h]

theorem get_stats_empty_no_data_witness :
    get_stats (SensorDataManager.init 1000 600) =
      StatsResult.noData "No data available yet" 0 ∧
    App.get_stats (App.SensorDataManager.init 1000 600) =
      App.StatsResult.noData "No data available yet" 0 :=
  ⟨get_stats_empty_no_data.1 (SensorDataManager.init 1000 600) rfl,
   get_stats_empty_no_data.2 (App.SensorDataManager.init 1000 600) rfl⟩

/-- C5 counterexample: with `polling_interval = 600` and a failing
sensor read (`read_sensors` returned None), the cycle appends nothing
but sleeps the full 600-second polling interval — not the 5-second
backoff the claim asserts. -/
theorem polling_cycle_read_failure_cex :
    (polling_cycle (start (SensorDataManager.init 1000 600)) 0 none).1
      = start (SensorDataManager.init 1000 600) ∧
    (polling_cycle (start (SensorDataManager.init 1000 600)) 0 none).2 = 600 ∧
    ¬ (polling_cycle (start (SensorDataManager.init 1000 600)) 0 none).2 = 5 := by
  decide

/-- C5 amended: when the sensor read fails (returns None), no sample is
appended and the loop is not terminated (the running flag is untouched),
but the cycle then sleeps the full `polling_interval`; the fixed
5-second backoff is used only when an exception escapes the cycle body,
i.e. when `add_sample` raises on a truthy reading. -/
theorem polling_cycle_read_failure :
    ∀ (st : SensorDataManager) (now : Nat),
      polling_cycle st now none = (st, st.polling_interval) ∧
      (polling_cycle st now none).1.running = st.running ∧
      ∀ (d : Dict) (st2 : SensorDataManager) (e : String),
        add_sample st now d = (st2, some e) →
        polling_cycle st now (some d) = (st2, 5) ∧ st2.running = st.running := by
  intro st now
  refine ⟨rfl, rfl, ?_⟩
  intro d st2 e hsa
  have hne : d.isEmpty = false := by
    by_contra hc
    have : d.isEmpty = true := by simpa using hc
    simp [add_sample, this] at hsa
  have hc := add_sample_config st now d
  rw [hsa] at hc
  constructor
  · simp [polling_cycle, hne, hsa]
  · exact hc.2.2.1

theorem polling_cycle_read_failure_witness :
    polling_cycle (start (SensorDataManager.init 5 600)) 0 none
      = (start (SensorDataManager.init 5 600), 600) ∧
    (polling_cycle (start (SensorDataManager.init 5 600)) 0
        (some [("temperature", 1)])).2 = 5 := by
  have h := polling_cycle_read_failure (start (SensorDataManager.init 5 600)) 0
  refine ⟨h.1, ?_⟩
  have h2 := (h.2.2 [("temperature", 1)] _ "KeyError: pressure" rfl).1
  rw [h2]

/-- C6: for every composite reading whose scalar reads succeeded, the
extended read path substitutes 0 for each field of a missing gas group
and for each field of a missing particulate group — each group
independently, so a reading missing only the particulates (or only the
gas, or both) is covered — and the resulting sample is still recorded:
`add_sample` raises nothing, appends one entry to every sequence, and
stores the substituted 0 in place of each missing field. -/
theorem read_sensors_zero_fills_missing :
    ∀ (raw : RawReading) (t p h l pr : ℚ),
      raw.temperature = some t → raw.pressure = some p →
      raw.humidity = some h → raw.light = some l →
      raw.proximity = some pr →
      ∃ r : Reading, (read_sensors raw).toReading? = some r ∧
        (raw.gas = none →
          r.gas_oxidising = 0 ∧ r.gas_reducing = 0 ∧ r.gas_nh3 = 0) ∧
        (raw.particulates = none →
          r.pm1 = 0 ∧ r.pm2_5 = 0 ∧ r.pm10 = 0) ∧
        ∀ (st : SensorDataManager) (now : Nat),
          (add_sample st now r.toDict).2 = none ∧
          (add_sample st now r.toDict).1.timestamps.length
            = min (st.timestamps.length + 1) st.max_samples ∧
          (raw.gas = none →
            (add_sample st now r.toDict).1.gas_oxidising
              = dequeAppend st.max_samples st.gas_oxidising 0 ∧
            (add_sample st now r.toDict).1.gas_reducing
              = dequeAppend st.max_samples st.gas_reducing 0 ∧
            (add_sample st now r.toDict).1.gas_nh3
              = dequeAppend st.max_samples st.gas_nh3 0) ∧
          (raw.particulates = none →
            (add_sample st now r.toDict).1.pm1
              = dequeAppend st.max_samples st.pm1 0 ∧
            (add_sample st now r.toDict).1.pm2_5
              = dequeAppend st.max_samples st.pm2_5 0 ∧
            (add_sample st now r.toDict).1.pm10
              = dequeAppend st.max_samples st.pm10 0) := by
  intro raw t p h l pr ht hp hh hl hpr
  refine ⟨⟨t, p, h, l, pr,
    (match raw.gas with | none => 0 | some g => g.oxidising),
    (match raw.gas with | none => 0 | some g => g.reducing),
    (match raw.gas with | none => 0 | some g => g.nh3),
    (match raw.particulates with | none => 0 | some x => x.pm1),
    (match raw.particulates with | none => 0 | some x => x.pm2_5),
    (match raw.particulates with | none => 0 | some x => x.pm10)⟩,
    ?_, ?_, ?_, ?_⟩
  · simp [read_sensors, ReadingPy.toReading?, ht, hp, hh, hl, hpr]
  · intro hg
    simp [hg]
  · intro hpm
    simp [hpm]
  · intro st now
    rw [add_sample_toDict]
    refine ⟨rfl, by simp [addReading, dequeAppend_length], ?_, ?_⟩
    · intro hg
      exact ⟨by simp [addReading, hg], by simp [addReading, hg],
        by simp [addReading, hg]⟩
    · intro hpm
      exact ⟨by simp [addReading, hpm], by simp [addReading, hpm],
        by simp [addReading, hpm]⟩

theorem read_sensors_zero_fills_missing_witness :
    (read_sensors rawExample).toReading? = some readingExample ∧
    readingExample.gas_oxidising = 0 ∧ readingExample.pm1 = 0 ∧
    (add_sample (SensorDataManager.init 5 600) 1 readingExample.toDict).2
      = none ∧
    (add_sample (SensorDataManager.init 5 600) 1
      readingExample.toDict).1.gas_oxidising = [0] ∧
    (read_sensors rawExample2).toReading? = some readingExample2 ∧
    readingExample2.pm1 = 0 ∧ readingExample2.pm2_5 = 0 ∧
    (add_sample (SensorDataManager.init 5 600) 2 readingExample2.toDict).2
      = none ∧
    (add_sample (SensorDataManager.init 5 600) 2
      readingExample2.toDict).1.pm2_5 = [0] := by
  obtain ⟨r, h1, hgas, hpm, h6⟩ :=
    read_sensors_zero_fills_missing rawExample 21 1013 50 100 3
      rfl rfl rfl rfl rfl
  have hr : r = readingExample := by
    have heq : some r = some readingExample := by rw [← h1]; rfl
    exact Option.some.inj heq
  subst hr
  obtain ⟨ha, -, hc, -⟩ := h6 (SensorDataManager.init 5 600) 1
  obtain ⟨r2, k1, -, kpm, k6⟩ :=
    read_sensors_zero_fills_missing rawExample2 21 1013 50 100 3
      rfl rfl rfl rfl rfl
  have hr2 : r2 = readingExample2 := by
    have heq : some r2 = some readingExample2 := by rw [← k1]; rfl
    exact Option.some.inj heq
  subst hr2
  obtain ⟨ka, -, -, kc⟩ := k6 (SensorDataManager.init 5 600) 2
  refine ⟨h1, (hgas rfl).1, (hpm rfl).1, ha, ?_, k1, (kpm rfl).1,
    (kpm rfl).2.1, ka, ?_⟩
  · rw [(hc rfl).1]
    rfl
  · rw [(kc rfl).2.1]
    rfl

/-- C7 counterexample: `add_sample` on the empty reading is a silent
no-op — `if not data: return` fires, so the sequences do not grow by
one entry; the empty store stays empty. -/
theorem add_sample_empty_reading_cex :
    add_sample (SensorDataManager.init 5 600) 7 []
      = (SensorDataManager.init 5 600, none) ∧
    ¬ ((add_sample (SensorDataManager.init 5 600) 7 []).1.timestamps.length
        = (SensorDataManager.init 5 600).timestamps.length + 1) := by
  decide

/-- C7 amended: `add_sample` has no error conditions on truthy readings:
every complete reading — a zero-filled one included — is accepted, with
one entry appended to every sequence (net length `min (n+1)
max_samples`, the oldest entry evicted at capacity); a falsy (empty)
reading is not an error either, but it is skipped as a no-op rather
than appended. -/
theorem add_sample_accepts_readings :
    ∀ (st : SensorDataManager) (now : Nat) (r : Reading),
      (add_sample st now r.toDict).2 = none ∧
      (add_sample st now r.toDict).1.timestamps.length
        = min (st.timestamps.length + 1) st.max_samples ∧
      (add_sample st now r.toDict).1.temperatures.length
        = min (st.temperatures.length + 1) st.max_samples ∧
      (add_sample st now r.toDict).1.pressures.length
        = min (st.pressures.length + 1) st.max_samples ∧
      (add_sample st now r.toDict).1.humidities.length
        = min (st.humidities.length + 1) st.max_samples ∧
      (add_sample st now r.toDict).1.light_levels.length
        = min (st.light_levels.length + 1) st.max_samples ∧
      (add_sample st now r.toDict).1.proximities.length
        = min (st.proximities.length + 1) st.max_samples ∧
      (add_sample st now r.toDict).1.gas_oxidising.length
        = min (st.gas_oxidising.length + 1) st.max_samples ∧
      (add_sample st now r.toDict).1.gas_reducing.length
        = min (st.gas_reducing.length + 1) st.max_samples ∧
      (add_sample st now r.toDict).1.gas_nh3.length
        = min (st.gas_nh3.length + 1) st.max_samples ∧
      (add_sample st now r.toDict).1.pm1.length
        = min (st.pm1.length + 1) st.max_samples ∧
      (add_sample st now r.toDict).1.pm2_5.length
        = min (st.pm2_5.length + 1) st.max_samples ∧
      (add_sample st now r.toDict).1.pm10.length
        = min (st.pm10.length + 1) st.max_samples ∧
      add_sample st now [] = (st, none) := by
  intro st now r
  rw [add_sample_toDict]
  refine ⟨rfl, ?_, ?_, ?_, ?_, ?_, ?_, ?_, ?_, ?_, ?_, ?_, ?_, rfl⟩ <;>
    simp [addReading, dequeAppend_length]

/-- C8: `start` is idempotent — on a running store it returns the state
unchanged (in particular it spawns no second acquisition task, the
thread count is untouched), so a double `start` equals a single one; on
a stopped store it enters the running state (spawning one task); and
`stop` followed by `start` re-enters the running state. -/
theorem start_idempotent_stop_start :
    ∀ st : SensorDataManager,
      (st.running = true → start st = st) ∧
      (st.running = false → (start st).running = true ∧
        (start st).threads_spawned = st.threads_spawned + 1) ∧
      start (start st) = start st ∧
      (start (stop st)).running = true ∧
      (stop st).running = false := by
  intro st
  by_cases h : st.running <;>
    simp [start, stop, h]

theorem start_idempotent_stop_start_witness :
    start (start (SensorDataManager.init 3 60))
      = start (SensorDataManager.init 3 60) ∧
    (start (SensorDataManager.init 3 60)).running = true ∧
    (start (SensorDataManager.init 3 60)).threads_spawned = 1 ∧
    (start (stop (SensorDataManager.init 3 60))).running = true := by
  have h1 := start_idempotent_stop_start (SensorDataManager.init 3 60)
  have h2 := start_idempotent_stop_start (start (SensorDataManager.init 3 60))
  obtain ⟨hr, hts⟩ := h1.2.1 (by decide)
  exact ⟨h2.1 hr, hr, hts, h1.2.2.2.1⟩

/-- C9: `max_samples` and `polling_interval` are immutable after
construction: `add_sample` (on any reading, error paths included),
`start`, `stop`, a whole polling cycle, and any sequence of additions
leave both fields of the extended store unchanged, and likewise
`add_sample` and the polling cycle of the baseline store.  (`get_data`
and `get_stats` are read-only queries: they take the state and return
a fresh snapshot or statistics value, so there is no post-state to
constrain.) -/
theorem config_immutable :
    ∀ (st : SensorDataManager) (now : Nat) (d : Dict) (dat : Option Dict)
      (adds : List (Nat × Reading)),
      ((add_sample st now d).1.max_samples = st.max_samples ∧
        (add_sample st now d).1.polling_interval = st.polling_interval) ∧
      ((start st).max_samples = st.max_samples ∧
        (start st).polling_interval = st.polling_interval) ∧
      ((stop st).max_samples = st.max_samples ∧
        (stop st).polling_interval = st.polling_interval) ∧
      ((polling_cycle st now dat).1.max_samples = st.max_samples ∧
        (polling_cycle st now dat).1.polling_interval = st.polling_interval) ∧
      ((runAdds st adds).max_samples = st.max_samples ∧
        (runAdds st adds).polling_interval = st.polling_interval) ∧
      ∀ (bst : App.SensorDataManager) (t p hq : ℚ) (hw : App.HwRead)
        (mock : ℚ × ℚ × ℚ),
        (App.add_sample bst now t p hq).max_samples = bst.max_samples ∧
        (App.add_sample bst now t p hq).polling_interval
          = bst.polling_interval ∧
        (App.polling_cycle bst now hw mock).1.max_samples = bst.max_samples ∧
        (App.polling_cycle bst now hw mock).1.polling_interval
          = bst.polling_interval := by
  intro st now d dat adds
  have hs := add_sample_config st now d
  have hp := polling_cycle_config st now dat
  have hr := runAdds_fields adds st
  refine ⟨⟨hs.1, hs.2.1⟩, ⟨?_, ?_⟩, ⟨rfl, rfl⟩, ⟨hp.1, hp.2.1⟩,
    ⟨hr.1, hr.2.1⟩, ?_⟩
  · by_cases h : st.running <;> simp [start, h]
  · by_cases h : st.running <;> simp [start, h]
  · intro bst t p hq hw mock
    cases hw <;>
      exact ⟨rfl, rfl, rfl, rfl⟩

/-- C10: the baseline `read_sensors` is total — on an absent device or
a raising read it returns the synthetic mock triple, on success the
hardware triple, never a failure — so the polling loop's skip branch is
unreachable and every cycle appends exactly one sample (one timestamp,
one value per metric) and sleeps the full polling interval. -/
theorem baseline_read_total_always_appends :
    ∀ (st : App.SensorDataManager) (now : Nat) (hw : App.HwRead)
      (mock : ℚ × ℚ × ℚ),
      App.read_sensors App.HwRead.absent mock = mock ∧
      App.read_sensors App.HwRead.raises mock = mock ∧
      (∀ t p h : ℚ,
        App.read_sensors (App.HwRead.succeeds t p h) mock = (t, p, h)) ∧
      (App.polling_cycle st now hw mock).1.timestamps
        = dequeAppend st.max_samples st.timestamps now ∧
      (App.polling_cycle st now hw mock).1.timestamps.length
        = min (st.timestamps.length + 1) st.max_samples ∧
      (App.polling_cycle st now hw mock).1.temperatures.length
        = min (st.temperatures.length + 1) st.max_samples ∧
      (App.polling_cycle st now hw mock).1.pressures.length
        = min (st.pressures.length + 1) st.max_samples ∧
      (App.polling_cycle st now hw mock).1.humidities.length
        = min (st.humidities.length + 1) st.max_samples ∧
      (App.polling_cycle st now hw mock).2 = st.polling_interval := by
  intro st now hw mock
  refine ⟨rfl, rfl, fun t p h => rfl, ?_, ?_, ?_, ?_, ?_, ?_⟩ <;>
    cases hw <;>
      simp [App.polling_cycle, App.read_sensors, App.add_sample,
        dequeAppend_length]

end AppEnviro
